import Mathlib

/-!
Verification development for the WowUSB-DS9 multi-OS provisioning pipeline.

The definitions below are a shallow embedding of the Python sources:
* `WowUSB/partitioning.py` — partition-layout planning (`create_multiboot_partition_layout`),
* `WowUSB/grub_manager.py` — boot-menu configuration rendering (`generate_grub_cfg`),
* `WowUSB/linux_installer.py` — the chrooted Linux full install
  (`install_linux_to_f2fs`, `run_in_chroot`),
* `WowUSB/core.py` — the multiboot orchestrator (`main_multiboot`),
* `WowUSB/utils.py` — the centralized command runner (`run_command`).

External effects (subprocess exit statuses, mount/unmount outcomes, the
cooperative cancellation flag) are passed in explicitly as oracle
parameters; the control flow, string templates and data handled by the
functions are translated from the source.
-/

namespace WowUSB

/-! ### String helpers (Python `str.lower`, `in`, `endswith`, `sorted`) -/

/-- Python `str.lower()` (restricted to the character-wise lowering Lean provides). -/
def lowerString (s : String) : String := ⟨s.data.map Char.toLower⟩

/-- Does `hay` start with `needle` (on character lists)? -/
def listStartsWith : List Char → List Char → Bool
  | [], _ => true
  | _ :: _, [] => false
  | n :: ns, h :: hs => n == h && listStartsWith ns hs

/-- Does `needle` occur as a contiguous substring of `hay` (on character lists)? -/
def listOccursIn (needle : List Char) : List Char → Bool
  | [] => needle.isEmpty
  | h :: hs => listStartsWith needle (h :: hs) || listOccursIn needle hs

/-- Python `needle in hay` on strings (contiguous substring test). -/
def strContainsSub (hay needle : String) : Bool :=
  listOccursIn needle.data hay.data

/-- Python `s.endswith(t)`. -/
def strEndsWith (s t : String) : Bool :=
  listStartsWith t.data.reverse s.data.reverse

/-- Lexicographic `≤` on strings by code point, as used by Python `sorted`. -/
def charListLe : List Char → List Char → Bool
  | [], _ => true
  | _ :: _, [] => false
  | a :: as, b :: bs => if a < b then true else if b < a then false else charListLe as bs

def strLeBool (a b : String) : Bool := charListLe a.data b.data

/-! ### Partition Planner (`WowUSB/partitioning.py`) -/

/-- The role of an entry in the multiboot partition plan. -/
inductive PartitionRole
  | esp
  | biosBoot
  | winToGo
  | payload
deriving DecidableEq

/-- Size specification of a partition: a fixed extent in MiB, or "all remaining
space" (sgdisk end sector `0` / parted `100%`). -/
inductive SizeSpec
  | fixedMiB (n : Int)
  | remaining
deriving DecidableEq

/-- One entry of the partition plan produced by
`create_multiboot_partition_layout` (partitioning.py lines 104-246):
partition number, start offset in MiB, size, end offset (absent for the
remaining-space entry), and the filesystem the entry is later formatted with
(absent for the BIOS-boot stub, which is never formatted). -/
structure PartitionEntry where
  role : PartitionRole
  number : Nat
  startMiB : Int
  sizeSpec : SizeSpec
  endMiB : Option Int
  fsFormat : Option String
deriving DecidableEq

/-- A filesystem capability entry: display name and the type string passed to
parted (`parted_fs_type` in filesystem_handlers.py). -/
structure FilesystemHandler where
  name : String
  partedFsType : String
deriving DecidableEq

/-- Modelled from the spec: the per-filesystem capability lookup
`get_filesystem_handler` is referenced by `partitioning.py` line 202 and by
the test suite (`tests/test_filesystems.py`, which exercises keys FAT, NTFS,
EXFAT, F2FS, BTRFS and an error on anything else), but its definition (and the
BTRFS handler class) is missing from `src/`. The handler names and parted
type strings for FAT/NTFS/EXFAT/F2FS are taken from the handler classes that
are present in `filesystem_handlers.py`; BTRFS follows the spec's "Linux-native
type code for F2FS/BTRFS". -/
def get_filesystem_handler (fsType : String) : Option FilesystemHandler :=
  if fsType = "FAT" then some ⟨"FAT32", "fat32"⟩
  else if fsType = "NTFS" then some ⟨"NTFS", "ntfs"⟩
  else if fsType = "EXFAT" then some ⟨"exFAT", "fat32"⟩
  else if fsType = "F2FS" then some ⟨"F2FS", "ext4"⟩
  else if fsType = "BTRFS" then some ⟨"BTRFS", "btrfs"⟩
  else none

/-- partitioning.py line 18. -/
def MIN_WIN_TO_GO_SIZE_GB : Int := 64

/-- partitioning.py lines 62-67: `None` or a request below the minimum is
replaced by the minimum. -/
def effectiveWinToGoSizeGb : Option Int → Int
  | none => MIN_WIN_TO_GO_SIZE_GB
  | some v => if v < MIN_WIN_TO_GO_SIZE_GB then MIN_WIN_TO_GO_SIZE_GB else v

/-- partitioning.py lines 106-136: ESP, partition 1, 1 MiB alignment offset,
exactly 512 MiB, formatted FAT32. -/
def espEntry : PartitionEntry :=
  ⟨PartitionRole.esp, 1, 1, SizeSpec.fixedMiB 512, some 513, some "FAT32"⟩

/-- partitioning.py lines 138-163: BIOS-boot stub, partition 2, exactly 1 MiB,
starting where the ESP ends, never formatted. -/
def biosBootEntry : PartitionEntry :=
  ⟨PartitionRole.biosBoot, 2, 513, SizeSpec.fixedMiB 1, some 514, none⟩

/-- partitioning.py lines 165-191: Windows-To-Go, partition 3, starting where
the BIOS-boot stub ends, `win_to_go_size_gb * 1024` MiB, formatted NTFS
(line 239). -/
def winToGoEntry (effGb : Int) : PartitionEntry :=
  ⟨PartitionRole.winToGo, 3, 514, SizeSpec.fixedMiB (effGb * 1024),
    some (514 + effGb * 1024), some "NTFS"⟩

/-- partitioning.py lines 193-226: payload partition, partition 4, starting
where Windows-To-Go ends, consuming all remaining space (sgdisk `:0` /
parted `100%`), formatted with the requested payload filesystem (line 244). -/
def payloadEntry (effGb : Int) (hnd : FilesystemHandler) : PartitionEntry :=
  ⟨PartitionRole.payload, 4, 514 + effGb * 1024, SizeSpec.remaining, none, some hnd.name⟩

/-- The partition plan computed by `create_multiboot_partition_layout`
(partitioning.py lines 40-261) on its success path: the geometry of the four
entries created in order, with the minimum-size rule applied to the
Windows-To-Go request. Returns `none` when the payload filesystem has no
capability handler. -/
def create_multiboot_partition_layout (winToGoSizeGb : Option Int)
    (payloadFsType : String) : Option (List PartitionEntry) :=
  (get_filesystem_handler payloadFsType).map fun hnd =>
    let eff := effectiveWinToGoSizeGb winToGoSizeGb
    [espEntry, biosBootEntry, winToGoEntry eff, payloadEntry eff hnd]

/-- core.py line 1930: the orchestrator requests a Windows-To-Go size of
`args.win_size_gb` when a Windows image is given and `0` otherwise. -/
def winToGoSizeArg (winIsoProvided : Bool) (winSizeGb : Int) : Int :=
  if winIsoProvided then winSizeGb else 0

/-! ### Boot Configuration Generator (`WowUSB/grub_manager.py`) -/

/-- grub_manager.py lines 75-81: the UEFI Windows chain-load stanza. -/
def WINDOWS_ENTRY_TEMPLATE_UEFI (windowsPartitionUuid : String) : String :=
  "menuentry \"Boot Windows (UEFI)\" --class windows \x7b\n" ++
  "    echo \"Loading Windows (UEFI)...\"\n" ++
  "    search --no-floppy --fs-uuid --set=root " ++ windowsPartitionUuid ++ "\n" ++
  "    chainloader /efi/microsoft/boot/bootmgfw.efi\n" ++
  "\x7d\n"

/-- grub_manager.py lines 83-89: the legacy-BIOS Windows stanza. -/
def WINDOWS_ENTRY_TEMPLATE_BIOS (windowsPartitionUuid : String) : String :=
  "menuentry \"Boot Windows (Legacy BIOS)\" --class windows \x7b\n" ++
  "    echo \"Loading Windows (Legacy BIOS)...\"\n" ++
  "    search --no-floppy --fs-uuid --set=root " ++ windowsPartitionUuid ++ "\n" ++
  "    ntldr /bootmgr\n" ++
  "\x7d\n"

/-- grub_manager.py lines 242-247: both Windows stanzas are always emitted. -/
def windowsEntryCombined (windowsPartitionUuid : String) : String :=
  WINDOWS_ENTRY_TEMPLATE_UEFI windowsPartitionUuid ++ "\n" ++
  WINDOWS_ENTRY_TEMPLATE_BIOS windowsPartitionUuid

/-- grub_manager.py lines 95-102: the installed-Linux stanza. -/
def LINUX_INSTALL_ENTRY_TEMPLATE (linuxName linuxRootfsUuid kernelOpts : String) : String :=
  "menuentry \"Boot Installed Linux (" ++ linuxName ++ ")\" --class gnu-linux \x7b\n" ++
  "    echo \"Loading Installed Linux (" ++ linuxName ++ ")...\"\n" ++
  "    search --no-floppy --fs-uuid --set=root " ++ linuxRootfsUuid ++ "\n" ++
  "    linux /boot/vmlinuz root=UUID=" ++ linuxRootfsUuid ++ " ro quiet " ++ kernelOpts ++ "\n" ++
  "    initrd /boot/initrd.img\n" ++
  "\x7d\n"

/-- A distro profile of `DISTRO_LOOPBACK_CONFIGS` (grub_manager.py lines
107-145): kernel/initrd path candidates, the boot-options template (a function
of the ISO's in-boot-partition path and its volume label), and the
case-insensitively matched name pattern. -/
structure DistroLoopbackConfig where
  key : String
  kernels : List String
  initrds : List String
  options : String → String → String
  namePattern : String

def ubuntuLoopbackConfig : DistroLoopbackConfig :=
  ⟨"ubuntu", ["/casper/vmlinuz", "/casper/vmlinuz.efi"], ["/casper/initrd.lz", "/casper/initrd"],
    fun isoPath _ => "iso-scan/filename=" ++ isoPath ++ " boot=casper quiet splash ---",
    "Ubuntu"⟩

def debianLoopbackConfig : DistroLoopbackConfig :=
  ⟨"debian", ["/live/vmlinuz", "/install.*/vmlinuz"], ["/live/initrd.img", "/install.*/initrd.gz"],
    fun isoPath _ => "findiso=" ++ isoPath ++ " boot=live quiet splash components ---",
    "Debian"⟩

def fedoraLoopbackConfig : DistroLoopbackConfig :=
  ⟨"fedora", ["/images/pxeboot/vmlinuz"], ["/images/pxeboot/initrd.img"],
    fun isoPath isoLabel =>
      "iso-scan/filename=" ++ isoPath ++ " root=live:CDLABEL=" ++ isoLabel ++
        " rd.live.image quiet",
    "Fedora"⟩

def archLoopbackConfig : DistroLoopbackConfig :=
  ⟨"arch", ["/arch/boot/vmlinuz-linux", "/boot/vmlinuz-x86_64"],
    ["/arch/boot/initramfs-linux.img",
      "/boot/intel_ucode.img /boot/amd_ucode.img /boot/initramfs-x86_64.img"],
    fun isoPath isoLabel =>
      "img_dev=/dev/disk/by-label/" ++ isoLabel ++ " img_loop=" ++ isoPath ++
        " earlymodules=loop aufs_type=RAM rw quiet splash",
    "Arch"⟩

def linuxmintLoopbackConfig : DistroLoopbackConfig :=
  ⟨"linuxmint", ["/casper/vmlinuz"], ["/casper/initrd.lz"],
    fun isoPath _ => "iso-scan/filename=" ++ isoPath ++ " boot=casper quiet splash ---",
    "Linux Mint"⟩

def manjaroLoopbackConfig : DistroLoopbackConfig :=
  ⟨"manjaro", ["/boot/vmlinuz-*"], ["/boot/initramfs-*.img"],
    fun isoPath isoLabel =>
      "img_dev=/dev/disk/by-label/" ++ isoLabel ++ " img_loop=" ++ isoPath ++
        " misobasedir=manjaro quiet splash",
    "Manjaro"⟩

/-- grub_manager.py lines 107-145, in the dict's (insertion) iteration order. -/
def DISTRO_LOOPBACK_CONFIGS : List DistroLoopbackConfig :=
  [ubuntuLoopbackConfig, debianLoopbackConfig, fedoraLoopbackConfig, archLoopbackConfig,
    linuxmintLoopbackConfig, manjaroLoopbackConfig]

/-- grub_manager.py lines 286-287: first profile whose lowered name pattern is
a substring of the lowered file name. -/
def matchDistroLoopbackConfig (filename : String) : Option DistroLoopbackConfig :=
  DISTRO_LOOPBACK_CONFIGS.find? fun c =>
    strContainsSub (lowerString filename) (lowerString c.namePattern)

/-- One cataloged ISO file: its name in the boot partition's `iso` directory
and the volume label determined for it (grub_manager.py lines 263-283). -/
structure IsoFile where
  filename : String
  label : String
deriving DecidableEq

/-- grub_manager.py line 266: the path GRUB uses, relative to its root. -/
def isoGrubPath (filename : String) : String := "/boot/iso/" ++ filename

/-- grub_manager.py lines 290-313: the loopback menu entry rendered for an ISO
that matched a distro profile (the code takes the first kernel/initrd
candidate of the profile). -/
def isoMenuEntry (f : IsoFile) (c : DistroLoopbackConfig) : String :=
  match c.kernels.head?, c.initrds.head? with
  | some k, some i =>
      "    menuentry \"Boot " ++ f.filename ++ "\" --class gnu-linux \x7b\n" ++
      "        set isofile=\"" ++ isoGrubPath f.filename ++ "\"\n" ++
      "        loopback loop $isofile\n" ++
      "        linux (loop)" ++ k ++ " " ++ c.options (isoGrubPath f.filename) f.label ++ "\n" ++
      "        initrd (loop)" ++ i ++ "\n" ++
      "    \x7d\n\n"
  | _, _ => ""

/-- grub_manager.py lines 263-317: the text an individual directory entry
contributes to the ISO submenu. Non-`.iso` names are filtered out (line 264);
a name matching no profile contributes nothing (line 316 only logs a
warning). -/
def isoEntryFor (f : IsoFile) : String :=
  if strEndsWith (lowerString f.filename) ".iso" then
    match matchDistroLoopbackConfig f.filename with
    | some c => isoMenuEntry f c
    | none => ""
  else ""

/-- Insertion of one ISO into a name-sorted listing. -/
def insertIsoSorted (f : IsoFile) : List IsoFile → List IsoFile
  | [] => [f]
  | g :: gs => if strLeBool f.filename g.filename then f :: g :: gs else g :: insertIsoSorted f gs

/-- grub_manager.py line 263: `sorted(os.listdir(iso_dir_path))`. -/
def sortIsosByFilename : List IsoFile → List IsoFile
  | [] => []
  | f :: fs => insertIsoSorted f (sortIsosByFilename fs)

/-- grub_manager.py lines 250-317: the accumulated ISO submenu text over the
sorted directory listing. -/
def isoEntriesText (listing : List IsoFile) : String :=
  String.join ((sortIsosByFilename listing).map isoEntryFor)

/-- grub_manager.py lines 261-320: the submenu body, or the fixed placeholder
entry when the `iso` directory does not exist. -/
def isoSectionText : Option (List IsoFile) → String
  | some listing => isoEntriesText listing
  | none => "    menuentry \"No ISOs found in /boot/iso/\" \x7b true \x7d\n"

/-- Details of a full Linux install passed to the renderer (grub_manager.py
lines 234-235, 323-331); `name` and `kernelOpts` fall back to the dict-lookup
defaults. -/
structure LinuxInstallDetails where
  uuid : String
  name : Option String
  kernelOpts : Option String
deriving DecidableEq

/-- grub_manager.py lines 323-331: the installed-Linux stanza is emitted only
when details are present with a non-empty uuid. -/
def linuxInstallEntryText : Option LinuxInstallDetails → String
  | none => ""
  | some d =>
      if d.uuid = "" then ""
      else
        LINUX_INSTALL_ENTRY_TEMPLATE (d.name.getD "Installed Linux") d.uuid (d.kernelOpts.getD "")

/-- grub_manager.py lines 17-73: `GRUB_CFG_TEMPLATE`, with the three
placeholders filled in. -/
def grubCfgTemplate (windowsEntry linuxInstallEntry isoEntries : String) : String :=
  "set timeout=10\n" ++
  "set default=0\n" ++
  "set theme=/boot/grub/themes/wowusb/theme.txt\n" ++
  "\n" ++
  "# Load necessary modules\n" ++
  "insmod part_gpt\n" ++
  "insmod part_msdos\n" ++
  "insmod fat\n" ++
  "insmod ntfs\n" ++
  "insmod exfat\n" ++
  "insmod f2fs\n" ++
  "insmod btrfs\n" ++
  "insmod udf\n" ++
  "insmod iso9660\n" ++
  "insmod chain\n" ++
  "insmod search_fs_uuid\n" ++
  "insmod search_label\n" ++
  "insmod loopback\n" ++
  "insmod linux\n" ++
  "insmod initrd\n" ++
  "insmod normal # for `normal` command if needed\n" ++
  "insmod efi_uga # for graphical console in EFI\n" ++
  "insmod efi_gop # for graphical console in EFI\n" ++
  "insmod all_video # tries to load all available video drivers\n" ++
  "\n" ++
  "# Graphics settings (optional, adjust as needed)\n" ++
  "if loadfont unicode ; then\n" ++
  "  set gfxmode=auto\n" ++
  "  set gfxpayload=keep\n" ++
  "  insmod gfxterm\n" ++
  "  insmod png\n" ++
  "  terminal_output gfxterm\n" ++
  "fi\n" ++
  "\n" ++
  windowsEntry ++ "\n" ++
  "\n" ++
  linuxInstallEntry ++ "\n" ++
  "\n" ++
  "# --- Linux ISOs ---\n" ++
  "submenu \"Boot Linux ISOs from /boot/iso/\" \x7b\n" ++
  isoEntries ++ "\n" ++
  "\x7d\n" ++
  "\n" ++
  "# --- Utility Menu ---\n" ++
  "submenu \"Utilities\" \x7b\n" ++
  "    menuentry \"Reboot\" \x7b\n" ++
  "        reboot\n" ++
  "    \x7d\n" ++
  "    menuentry \"Shutdown\" \x7b\n" ++
  "        halt\n" ++
  "    \x7d\n" ++
  "    menuentry \"UEFI Firmware Settings (UEFI only)\" \x7b\n" ++
  "        fwsetup\n" ++
  "    \x7d\n" ++
  "\x7d\n"

/-- grub_manager.py lines 226-364: the configuration text returned by
`generate_grub_cfg`, as a function of the catalog (Windows partition UUID,
payload partition UUID — accepted but unused by the renderer, the ISO
directory listing with labels, and the installed-Linux details). -/
def generate_grub_cfg (windowsPartitionUuid : String) (payloadPartitionUuid : Option String)
    (isoDirListing : Option (List IsoFile))
    (linuxInstallDetails : Option LinuxInstallDetails) : String :=
  let _ := payloadPartitionUuid
  grubCfgTemplate (windowsEntryCombined windowsPartitionUuid)
    (linuxInstallEntryText linuxInstallDetails)
    (isoSectionText isoDirListing)

/-! ### Command runner (`WowUSB/utils.py` lines 647-680) -/

/-- `utils.run_command`: its docstring says "Actual implementation would use
subprocess.run", i.e. it yields the invoked command's exit status (0 on
success). The subprocess outcome is abstracted by the `exitCode` oracle; in
Python callers the return value is used for truthiness, so non-zero means
failure. -/
def run_command (exitCode : List String → Nat) (cmd : List String) : Nat :=
  exitCode cmd

/-- The exit statuses the stub body of `utils.run_command` actually simulates:
1 when the marker `fail_command_test` appears in the command, otherwise 0
("Assume success"). -/
def run_command_stub_exit (cmd : List String) : Nat :=
  if cmd.contains "fail_command_test" then 1 else 0

/-! ### Linux Full-Install Content Installer (`WowUSB/linux_installer.py`) -/

/-- linux_installer.py line 18. -/
def DEFAULT_UBUNTU_RELEASE : String := "focal"

/-- linux_installer.py line 19. -/
def DEFAULT_DEBIAN_RELEASE : String := "bullseye"

/-- linux_installer.py lines 21-32: missing-dependency report for the
requested distro family, given which bootstrap tools are on PATH. -/
def check_linux_installer_dependencies (distroType : String)
    (debootstrapAvailable pacstrapAvailable : Bool) : List String :=
  if lowerString distroType = "ubuntu" ∨ lowerString distroType = "debian" then
    if debootstrapAvailable then [] else ["debootstrap"]
  else if lowerString distroType = "arch" then
    if pacstrapAvailable then [] else ["arch-install-scripts (provides pacstrap)"]
  else ["Unsupported distro_type for installer: " ++ distroType]

/-- linux_installer.py lines 193-205: the debootstrap invocation. -/
def cmd_debootstrap (distroType release rootfsMountPoint : String) : List String :=
  let mirror :=
    if lowerString distroType = "debian" then "http://deb.debian.org/debian"
    else "http://archive.ubuntu.com/ubuntu/"
  ["debootstrap", "--arch=amd64", release, rootfsMountPoint, mirror]

/-- linux_installer.py lines 212-222: the pacstrap invocation. -/
def cmd_pacstrap (rootfsMountPoint : String) : List String :=
  ["pacstrap", "-c", "-K", rootfsMountPoint] ++
    ["base", "linux", "linux-firmware", "f2fs-tools", "grub", "networkmanager", "sudo",
      "vim", "man-db"]

/-- Outcomes of the individual post-installation configuration steps of
linux_installer.py lines 234-310. The locale-related chroot steps (lines
251-260: apt update/install, locale-gen, update-locale) have their results
discarded entirely by the source, so they carry no field here; the fields
below are the step results the source inspects (and, for all but the fstab
write, only logs). -/
structure PostConfigOutcomes where
  fstabWrite : Bool
  rootPasswd : Bool
  useraddWowuser : Bool
  wowuserPasswd : Bool
  bootConfigRegen : Bool
  systemctlPresent : Bool
deriving DecidableEq

/-- linux_installer.py lines 234-310: the post-installation configuration
block. Returns the boolean the enclosing install returns once this block is
reached, together with the warnings logged along the way. A failed fstab
write returns failure immediately (line 239); every later step only logs. -/
def postInstallConfiguration (distroType : String) (oc : PostConfigOutcomes) :
    Bool × List String :=
  if ¬ oc.fstabWrite then (false, ["Error writing fstab file"])
  else
    let w₁ := if oc.rootPasswd then [] else ["Failed to set root password."]
    let w₂ := if oc.useraddWowuser then [] else ["Failed to add user 'wowuser'."]
    let w₃ := if oc.wowuserPasswd then [] else ["Failed to set password for 'wowuser'."]
    let w₄ :=
      if oc.bootConfigRegen then []
      else if lowerString distroType = "arch" then ["grub-mkconfig failed in chroot for Arch."]
      else ["update-grub failed in chroot."]
    let w₅ :=
      if oc.systemctlPresent then []
      else ["systemctl not found, skipping NetworkManager enable (manual setup may be needed)."]
    (true, w₁ ++ w₂ ++ w₃ ++ w₄ ++ w₅)

/-- The environment a run of `install_linux_to_f2fs` executes in: tool
availability, whether the payload partition is already mounted at the rootfs
mount point, the exit statuses of the external commands run through
`run_command`, and the post-configuration step outcomes. -/
structure LinuxInstallEnv where
  debootstrapAvailable : Bool
  pacstrapAvailable : Bool
  payloadAlreadyMounted : Bool
  exitCode : List String → Nat
  postConfig : PostConfigOutcomes

/-- Observable result of `install_linux_to_f2fs`: the returned boolean,
whether the bootstrap tool was invoked, and whether the post-installation
configuration block was entered. -/
structure LinuxInstallResult where
  result : Bool
  bootstrapInvoked : Bool
  postConfigAttempted : Bool
deriving DecidableEq

/-- linux_installer.py lines 152-315: `install_linux_to_f2fs`. Control flow as
written in the source: missing dependencies abort first (lines 173-176); a
failed payload mount aborts (lines 180-185); then the bootstrap tool runs and
the source tests `if utils.run_command(...)` — which in Python is taken
exactly when the returned exit status is NON-zero — entering the
post-configuration block in that case and returning False otherwise (lines
207-210 and 226-229). (The call sites additionally pass an `env=` keyword
that `utils.run_command` does not accept; the model elides that TypeError and
keeps the branch structure.) -/
def install_linux_to_f2fs (targetPayloadPartition distroType rootfsMountPoint : String)
    (distroRelease : Option String) (env : LinuxInstallEnv) : LinuxInstallResult :=
  let deps := check_linux_installer_dependencies distroType env.debootstrapAvailable
    env.pacstrapAvailable
  if deps ≠ [] then ⟨false, false, false⟩
  else if ¬ env.payloadAlreadyMounted ∧
      run_command env.exitCode ["mount", targetPayloadPartition, rootfsMountPoint] ≠ 0 then
    ⟨false, false, false⟩
  else if lowerString distroType = "ubuntu" ∨ lowerString distroType = "debian" then
    let release := distroRelease.getD
      (if lowerString distroType = "ubuntu" then DEFAULT_UBUNTU_RELEASE
       else DEFAULT_DEBIAN_RELEASE)
    if run_command env.exitCode (cmd_debootstrap distroType release rootfsMountPoint) ≠ 0 then
      ⟨(postInstallConfiguration distroType env.postConfig).1, true, true⟩
    else ⟨false, true, false⟩
  else if lowerString distroType = "arch" then
    if run_command env.exitCode (cmd_pacstrap rootfsMountPoint) ≠ 0 then
      ⟨(postInstallConfiguration distroType env.postConfig).1, true, true⟩
    else ⟨false, true, false⟩
  else ⟨false, false, false⟩

/-! ### `run_in_chroot` (`WowUSB/linux_installer.py` lines 70-149) -/

/-- linux_installer.py lines 75-80 and 89: the pseudo-filesystems bound into
the chroot, as (mount source, target path) in the dict's insertion order. -/
def chrootMountTargets (rootfsMountPoint : String) : List (String × String) :=
  [("proc", rootfsMountPoint ++ "/proc"),
    ("sys", rootfsMountPoint ++ "/sys"),
    ("dev", rootfsMountPoint ++ "/dev"),
    ("devpts", rootfsMountPoint ++ "/dev/pts")]

/-- The environment a `run_in_chroot` call executes in: exit statuses of the
bind mounts (keyed by pseudo-filesystem source), of the chrooted command, and
of `umount -l` on a given path. -/
structure ChrootEnv where
  mountExitCode : String → Nat
  chrootCommandExitCode : Nat
  umountExitCode : String → Nat

/-- How a `run_in_chroot` call ends: with a boolean return value, or with the
`NameError` raised by `time.sleep(1)` on line 147 — linux_installer.py never
imports `time`. -/
inductive ChrootOutcome
  | returns (success : Bool)
  | raisesNameError
deriving DecidableEq

/-- Observable result of `run_in_chroot`: how it ends, which paths were
bind-mounted (in order), and which `umount -l` attempts were made (path and
attempt index) before it ended. -/
structure ChrootRun where
  outcome : ChrootOutcome
  mounted : List String
  unmountAttempts : List (String × Nat)
deriving DecidableEq

/-- linux_installer.py lines 86-106: bind-mount the pseudo-filesystems in
order; the first failure raises (caught at line 134, producing a False
return), leaving the earlier mounts in `mounted_successfully`. -/
def chrootMountLoop (mountExitCode : String → Nat) :
    List (String × String) → List String × Bool
  | [] => ([], true)
  | (name, path) :: rest =>
      if mountExitCode name ≠ 0 then ([], false)
      else
        let (ms, ok) := chrootMountLoop mountExitCode rest
        (path :: ms, ok)

/-- linux_installer.py lines 137-149: the `finally` block. For each mounted
path in reverse order the source runs `for attempt in range(3):
if utils.run_command(["umount", "-l", path], ...): break` followed by
`time.sleep(1)` — so a NON-zero (failed) unmount takes the `break` after a
single attempt, while a zero (successful) unmount falls through to
`time.sleep(1)`, which raises `NameError` because `time` is never imported.
Returns the attempts made and whether the `NameError` escaped. -/
def chrootUnmountLoop (umountExitCode : String → Nat) :
    List String → List (String × Nat) × Bool
  | [] => ([], false)
  | p :: rest =>
      if umountExitCode p ≠ 0 then
        let (attempts, raisedErr) := chrootUnmountLoop umountExitCode rest
        ((p, 0) :: attempts, raisedErr)
      else ([(p, 0)], true)

/-- linux_installer.py lines 70-149: `run_in_chroot`. Mount the
pseudo-filesystems, run the chrooted command (whose truthiness decides the
pending boolean return), then execute the `finally` unmount loop; a
`NameError` raised there replaces the pending return value. -/
def run_in_chroot (rootfsMountPoint : String) (commandList : List String)
    (env : ChrootEnv) : ChrootRun :=
  let _ := commandList
  let mountRes := chrootMountLoop env.mountExitCode (chrootMountTargets rootfsMountPoint)
  let pending : Bool := mountRes.2 && (env.chrootCommandExitCode == 0)
  let unmountRes := chrootUnmountLoop env.umountExitCode mountRes.1.reverse
  ⟨if unmountRes.2 then ChrootOutcome.raisesNameError else ChrootOutcome.returns pending,
    mountRes.1, unmountRes.1⟩

/-! ### Multiboot Orchestrator (`WowUSB/core.py` lines 1883-2176)

The model below covers the mount-lifecycle region of `main_multiboot`: the
`try` block beginning at line 1957 (after a successful partition layout, which
is modelled separately above) and its `finally` block at lines 2156-2175. -/

/-- The partitions/images `main_multiboot` mounts: the ESP (line 1962), the
Windows-To-Go partition (line 2051), the Windows source ISO loop mount made by
`mount_source_filesystem` (line 2057), and the payload partition (line 2112). -/
inductive MountId
  | efi
  | winToGo
  | winIso
  | payload
deriving DecidableEq

/-- The orchestrator arguments that decide which mounts are acquired. -/
structure MultibootArgs where
  winIsoProvided : Bool
  fullLinuxInstall : Bool
deriving DecidableEq

/-- The environment a `main_multiboot` run executes in: which steps fail,
and whether the cooperative cancellation flag is set when the two
`check_kill_signal` checkpoints reachable from this pipeline run (on entry to
`mount_source_filesystem`, core.py line 554, and inside the copy loop of
`copy_filesystem_files`, lines 620/634) — a set flag raises there.
`copyPhaseRaises` stands for any other exception while copying/patching the
Windows files (lines 2063-2072). -/
structure MultibootEnv where
  mountEfiFails : Bool
  grubInstallFails : Bool
  mountWinFails : Bool
  cancelAtMountSourceCheckpoint : Bool
  mountWinIsoFails : Bool
  cancelAtCopyLoopCheckpoint : Bool
  copyPhaseRaises : Bool
  mountPayloadFails : Bool
  linuxInstallFails : Bool
  generateGrubCfgFails : Bool
deriving DecidableEq

/-- How the `try` body of `main_multiboot` ends: a `return` with an exit code,
or an exception (including the cancellation exception) propagating out. -/
inductive MbOutcome
  | returned (code : Nat)
  | raised
deriving DecidableEq

/-- Observable result of a `main_multiboot` run: how the body ended, the
mounts acquired in acquisition order, the release attempts made inline inside
the `try` body, and the release attempts made by the `finally` block. -/
structure MbRun where
  outcome : MbOutcome
  acquired : List MountId
  inlineReleases : List MountId
  cleanupAttempts : List MountId
deriving DecidableEq

/-- All release attempts of a run, in order. -/
def MbRun.releases (r : MbRun) : List MountId :=
  r.inlineReleases ++ r.cleanupAttempts

/-- Mounts acquired during the run for which no release was ever attempted. -/
def MbRun.outstanding (r : MbRun) : List MountId :=
  r.acquired.filter fun m => !(r.releases.contains m)

/-- core.py lines 2156-2161: however the `try` body ended, the `finally` block
runs `umount -R` with `suppress_errors=True` on each entry of
`mounted_partitions_cleanup_list` in reverse order, ignoring each outcome
(which is why release outcomes are absent from `MultibootEnv`: no release
failure can affect the remaining attempts). `tracked` is the cleanup list as
it stood when the body ended. -/
def finalizeRun (outcome : MbOutcome) (tracked acquired inlineRel : List MountId) : MbRun :=
  ⟨outcome, acquired, inlineRel, tracked.reverse⟩

/-- core.py lines 2135-2154: generate grub.cfg; on failure unmount the cleanup
list inline (line 2148) and return 1, otherwise return 0. -/
def mbGenerateConfigStage (env : MultibootEnv) (tracked acquired inlineRel : List MountId) :
    MbRun :=
  if env.generateGrubCfgFails then
    finalizeRun (MbOutcome.returned 1) tracked acquired (inlineRel ++ tracked.reverse)
  else finalizeRun (MbOutcome.returned 0) tracked acquired inlineRel

/-- core.py lines 2101-2133: the optional full Linux install. A failed payload
mount returns 1 with no inline cleanup (line 2112); a failed install unmounts
the cleanup list inline (line 2125) and returns 1. -/
def mbFullLinuxStage (args : MultibootArgs) (env : MultibootEnv)
    (tracked acquired inlineRel : List MountId) : MbRun :=
  if args.fullLinuxInstall then
    if env.mountPayloadFails then finalizeRun (MbOutcome.returned 1) tracked acquired inlineRel
    else
      let tracked' := tracked ++ [MountId.payload]
      let acquired' := acquired ++ [MountId.payload]
      if env.linuxInstallFails then
        finalizeRun (MbOutcome.returned 1) tracked' acquired' (inlineRel ++ tracked'.reverse)
      else mbGenerateConfigStage env tracked' acquired' inlineRel
  else mbGenerateConfigStage env tracked acquired inlineRel

/-- core.py lines 2041-2080: the optional Windows-To-Go phase. The
Windows-To-Go partition mount is appended to the cleanup list (line 2052), but
the Windows source-ISO loop mount made at line 2057 is NOT tracked: it is
released only by the inline `umount -l` at line 2075, which is skipped
whenever the copy phase raises (cancellation at a `check_kill_signal`
checkpoint, or any other exception). A set cancellation flag on entry to
`mount_source_filesystem` (core.py line 554) raises before the ISO is
mounted; a failed ISO mount unmounts the cleanup list inline (line 2059) and
returns 1. -/
def mbWindowsStage (args : MultibootArgs) (env : MultibootEnv)
    (tracked acquired : List MountId) : MbRun :=
  if args.winIsoProvided then
    if env.mountWinFails then finalizeRun (MbOutcome.returned 1) tracked acquired []
    else
      let tracked' := tracked ++ [MountId.winToGo]
      let acquired' := acquired ++ [MountId.winToGo]
      if env.cancelAtMountSourceCheckpoint then finalizeRun MbOutcome.raised tracked' acquired' []
      else if env.mountWinIsoFails then
        finalizeRun (MbOutcome.returned 1) tracked' acquired' tracked'.reverse
      else
        let acquired'' := acquired' ++ [MountId.winIso]
        if env.cancelAtCopyLoopCheckpoint || env.copyPhaseRaises then
          finalizeRun MbOutcome.raised tracked' acquired'' []
        else mbFullLinuxStage args env tracked' acquired'' [MountId.winIso]
  else mbFullLinuxStage args env tracked acquired []

/-- core.py lines 1955-2176: the mount-lifecycle region of `main_multiboot`.
A failed ESP mount returns 1 (line 1962) before anything is acquired; a
failed GRUB install unmounts the cleanup list inline (line 2038) and
returns 1; then the Windows, Linux-ISO (which acquires no mounts), full-Linux
and config stages run in order, and the `finally` block always releases the
cleanup list in reverse order. -/
def main_multiboot (args : MultibootArgs) (env : MultibootEnv) : MbRun :=
  if env.mountEfiFails then finalizeRun (MbOutcome.returned 1) [] [] []
  else if env.grubInstallFails then
    finalizeRun (MbOutcome.returned 1) [MountId.efi] [MountId.efi] [MountId.efi]
  else mbWindowsStage args env [MountId.efi] [MountId.efi]

end WowUSB

namespace WowUSB

/-! ### Theorems about the Partition Planner -/

/-- Helper: the minimum-size rule of partitioning.py lines 62-67 computes
`max(requested, 64)`, with a missing request treated as the minimum. -/
theorem effectiveWinToGoSizeGb_eq_max (req : Option Int) :
    effectiveWinToGoSizeGb req = max (req.getD MIN_WIN_TO_GO_SIZE_GB) MIN_WIN_TO_GO_SIZE_GB := by
  cases req with
  | none => simp [effectiveWinToGoSizeGb]
  | some v =>
      simp only [effectiveWinToGoSizeGb, Option.getD_some]
      rcases lt_or_le v MIN_WIN_TO_GO_SIZE_GB with h | h
      · rw [if_pos h, max_eq_right h.le]
      · rw [if_neg (not_lt.mpr h), max_eq_left h]

/-- C5: for every requested Windows-To-Go size, the Windows-To-Go partition of
the layout produced by `create_multiboot_partition_layout` has size
`max(requested, 64)` GiB — a missing request or one below 64 GiB is raised to
exactly 64 GiB, a request of at least 64 GiB is used unchanged, and the size
is never below 64 GiB. -/
theorem winToGo_partition_size_is_max_with_minimum (req : Option Int) (fs : String)
    (entries : List PartitionEntry)
    (h : create_multiboot_partition_layout req fs = some entries) :
    entries.get? 2 =
      some (winToGoEntry (max (req.getD MIN_WIN_TO_GO_SIZE_GB) MIN_WIN_TO_GO_SIZE_GB))
    ∧ ∀ e ∈ entries, e.role = PartitionRole.winToGo →
        ∃ n, e.sizeSpec = SizeSpec.fixedMiB n ∧ MIN_WIN_TO_GO_SIZE_GB * 1024 ≤ n := by
  unfold create_multiboot_partition_layout at h
  cases hg : get_filesystem_handler fs with
  | none => rw [hg] at h; simp at h
  | some hnd =>
      rw [hg] at h
      simp only [Option.map_some'] at h
      obtain rfl : _ = entries := Option.some.injEq _ _ ▸ h
      constructor
      · rw [effectiveWinToGoSizeGb_eq_max]
        rfl
      · intro e he hrole
        simp only [List.mem_cons, List.not_mem_nil, or_false] at he
        rcases he with rfl | rfl | rfl | rfl
        · exact absurd hrole (by simp [espEntry])
        · exact absurd hrole (by simp [biosBootEntry])
        · refine ⟨effectiveWinToGoSizeGb req * 1024, rfl, ?_⟩
          have h64 : MIN_WIN_TO_GO_SIZE_GB ≤ effectiveWinToGoSizeGb req := by
            rw [effectiveWinToGoSizeGb_eq_max]; exact le_max_right _ _
          nlinarith [h64]
        · exact absurd hrole (by simp [payloadEntry])

/-- Witness for C5 at the concrete request of 10 GiB (below the minimum) and
an F2FS payload. -/
theorem winToGo_partition_size_witness :
    ([espEntry, biosBootEntry, winToGoEntry 64, payloadEntry 64 ⟨"F2FS", "ext4"⟩].get? 2 =
      some (winToGoEntry (max ((some (10 : Int)).getD MIN_WIN_TO_GO_SIZE_GB) MIN_WIN_TO_GO_SIZE_GB)))
    ∧ ∀ e ∈ [espEntry, biosBootEntry, winToGoEntry 64, payloadEntry 64 ⟨"F2FS", "ext4"⟩],
        e.role = PartitionRole.winToGo →
        ∃ n, e.sizeSpec = SizeSpec.fixedMiB n ∧ MIN_WIN_TO_GO_SIZE_GB * 1024 ≤ n :=
  winToGo_partition_size_is_max_with_minimum (some 10) "F2FS" _ (by decide)

/-- C6: for every valid `(win_to_go_size, payload_fs)` input, the produced
layout consists of exactly the four entries ESP, BIOS-boot, Windows-To-Go,
Payload in that physical order (partition numbers 1-4), the ESP is exactly
512 MiB starting at the 1 MiB alignment offset, the BIOS-boot entry is exactly
1 MiB, each entry's start offset equals the previous entry's end offset, and
the payload entry consumes all remaining space. -/
theorem create_layout_fixed_order_and_geometry (req : Option Int) (fs : String)
    (entries : List PartitionEntry)
    (h : create_multiboot_partition_layout req fs = some entries) :
    entries.map PartitionEntry.role =
      [PartitionRole.esp, PartitionRole.biosBoot, PartitionRole.winToGo, PartitionRole.payload]
    ∧ entries.map PartitionEntry.number = [1, 2, 3, 4]
    ∧ (∀ e ∈ entries, e.role = PartitionRole.esp →
        e.startMiB = 1 ∧ e.sizeSpec = SizeSpec.fixedMiB 512)
    ∧ (∀ e ∈ entries, e.role = PartitionRole.biosBoot → e.sizeSpec = SizeSpec.fixedMiB 1)
    ∧ List.Chain' (fun a b => a.endMiB = some b.startMiB) entries
    ∧ (∀ e ∈ entries, e.role = PartitionRole.payload → e.sizeSpec = SizeSpec.remaining) := by
  unfold create_multiboot_partition_layout at h
  cases hg : get_filesystem_handler fs with
  | none => rw [hg] at h; simp at h
  | some hnd =>
      rw [hg] at h
      simp only [Option.map_some'] at h
      obtain rfl : _ = entries := Option.some.injEq _ _ ▸ h
      refine ⟨rfl, rfl, ?_, ?_, ?_, ?_⟩
      · intro e he hrole
        simp only [List.mem_cons, List.not_mem_nil, or_false] at he
        rcases he with rfl | rfl | rfl | rfl
        · exact ⟨rfl, rfl⟩
        · exact absurd hrole (by simp [biosBootEntry])
        · exact absurd hrole (by simp [winToGoEntry])
        · exact absurd hrole (by simp [payloadEntry])
      · intro e he hrole
        simp only [List.mem_cons, List.not_mem_nil, or_false] at he
        rcases he with rfl | rfl | rfl | rfl
        · exact absurd hrole (by simp [espEntry])
        · rfl
        · exact absurd hrole (by simp [winToGoEntry])
        · exact absurd hrole (by simp [payloadEntry])
      · simp [List.chain'_cons, espEntry, biosBootEntry, winToGoEntry, payloadEntry]
      · intro e he hrole
        simp only [List.mem_cons, List.not_mem_nil, or_false] at he
        rcases he with rfl | rfl | rfl | rfl
        · exact absurd hrole (by simp [espEntry])
        · exact absurd hrole (by simp [biosBootEntry])
        · exact absurd hrole (by simp [winToGoEntry])
        · rfl

/-- Witness for C6 at a concrete 64 GiB request with an F2FS payload. -/
theorem create_layout_fixed_order_witness :
    ([espEntry, biosBootEntry, winToGoEntry 64, payloadEntry 64 ⟨"F2FS", "ext4"⟩].map
        PartitionEntry.role =
      [PartitionRole.esp, PartitionRole.biosBoot, PartitionRole.winToGo, PartitionRole.payload])
    ∧ ([espEntry, biosBootEntry, winToGoEntry 64, payloadEntry 64 ⟨"F2FS", "ext4"⟩].map
        PartitionEntry.number = [1, 2, 3, 4]) :=
  let h := create_layout_fixed_order_and_geometry (some 64) "F2FS" _ (by decide)
  ⟨h.1, h.2.1⟩

/-- C10: with no Windows image requested, the orchestrator still calls the
layout planner with a requested Windows-To-Go size of 0 (core.py line 1930),
which the minimum-size rule raises to 64 GiB: the produced layout contains a
64 GiB NTFS-formatted Windows-To-Go partition. -/
theorem no_windows_image_still_allocates_64GiB_ntfs (winSizeGb : Int) (fs : String)
    (entries : List PartitionEntry)
    (h : create_multiboot_partition_layout (some (winToGoSizeArg false winSizeGb)) fs =
      some entries) :
    winToGoSizeArg false winSizeGb = 0
    ∧ entries.get? 2 = some (winToGoEntry 64)
    ∧ (winToGoEntry 64).sizeSpec = SizeSpec.fixedMiB (64 * 1024)
    ∧ (winToGoEntry 64).fsFormat = some "NTFS" := by
  unfold create_multiboot_partition_layout at h
  cases hg : get_filesystem_handler fs with
  | none => rw [hg] at h; simp at h
  | some hnd =>
      rw [hg] at h
      simp only [Option.map_some'] at h
      obtain rfl : _ = entries := Option.some.injEq _ _ ▸ h
      exact ⟨rfl, rfl, rfl, rfl⟩

/-- Witness for C10 at a concrete requested size of 128 GiB with no Windows
image, on an F2FS payload. -/
theorem no_windows_image_witness :
    winToGoSizeArg false 128 = 0
    ∧ ([espEntry, biosBootEntry, winToGoEntry 64, payloadEntry 64 ⟨"F2FS", "ext4"⟩].get? 2 =
        some (winToGoEntry 64))
    ∧ (winToGoEntry 64).sizeSpec = SizeSpec.fixedMiB (64 * 1024)
    ∧ (winToGoEntry 64).fsFormat = some "NTFS" :=
  no_windows_image_still_allocates_64GiB_ntfs 128 "F2FS" _ (by decide)

/-! ### Theorems about the Boot Configuration Generator -/

/-- C7: rendering the boot configuration twice from an identical catalog (same
Windows partition UUID, same payload UUID, same ISO listing with the same
labels, same installed-Linux details) produces byte-identical text — the
renderer is a pure function of the catalog, with no timestamps or random
identifiers. -/
theorem generate_grub_cfg_deterministic (w₁ w₂ : String) (p₁ p₂ : Option String)
    (l₁ l₂ : Option (List IsoFile)) (d₁ d₂ : Option LinuxInstallDetails)
    (hw : w₁ = w₂) (hp : p₁ = p₂) (hl : l₁ = l₂) (hd : d₁ = d₂) :
    generate_grub_cfg w₁ p₁ l₁ d₁ = generate_grub_cfg w₂ p₂ l₂ d₂ := by
  subst hw; subst hp; subst hl; subst hd; rfl

/-- Witness for C7 on a concrete catalog. -/
theorem generate_grub_cfg_deterministic_witness :
    generate_grub_cfg "D34D-B33F" (some "PAYLOAD-UUID")
        (some [⟨"ubuntu-22.04-desktop-amd64.iso", "Ubuntu 22.04 LTS amd64"⟩])
        (some ⟨"LINUX-UUID", some "Ubuntu (F2FS)", some ""⟩)
      = generate_grub_cfg "D34D-B33F" (some "PAYLOAD-UUID")
        (some [⟨"ubuntu-22.04-desktop-amd64.iso", "Ubuntu 22.04 LTS amd64"⟩])
        (some ⟨"LINUX-UUID", some "Ubuntu (F2FS)", some ""⟩) :=
  generate_grub_cfg_deterministic _ _ _ _ _ _ _ _ rfl rfl rfl rfl

set_option maxRecDepth 100000 in
/-- C8 counterexample: an ISO whose name matches no distro marker contributes
nothing at all to the rendered output — there is no disabled/"skipped" entry;
the configuration rendered with the unmatched ISO is byte-identical to the one
rendered with an empty ISO directory, and the ISO's name appears nowhere in
it. (The "Skipping" notice of grub_manager.py line 317 goes to the log, not
into the rendered text.) -/
theorem unmatched_iso_not_in_rendered_output :
    isoEntryFor ⟨"unknown_distro.iso", "USB_ISO"⟩ = ""
    ∧ generate_grub_cfg "WIN-UUID-0001" none (some [⟨"unknown_distro.iso", "USB_ISO"⟩]) none
        = generate_grub_cfg "WIN-UUID-0001" none (some []) none
    ∧ strContainsSub
        (generate_grub_cfg "WIN-UUID-0001" none (some [⟨"unknown_distro.iso", "USB_ISO"⟩]) none)
        "unknown_distro" = false := by
  refine ⟨by decide, by rfl, by decide⟩

/-- C8 amended: for every cataloged `.iso` file, the name is matched against
the profiles case-insensitively with the first match winning; a name
containing the marker "ubuntu" always yields the Ubuntu loopback stanza
(which references the ISO's path under /boot/iso), while a name matching no
marker contributes nothing to the rendered output — a warning is only logged —
and rendering never fails (the renderer is a total function). -/
theorem iso_name_matching (f : IsoFile)
    (hiso : strEndsWith (lowerString f.filename) ".iso" = true) :
    (strContainsSub (lowerString f.filename) "ubuntu" = true →
        matchDistroLoopbackConfig f.filename = some ubuntuLoopbackConfig
        ∧ isoEntryFor f = isoMenuEntry f ubuntuLoopbackConfig)
    ∧ (matchDistroLoopbackConfig f.filename = none → isoEntryFor f = "") := by
  constructor
  · intro h
    have hpat : lowerString ubuntuLoopbackConfig.namePattern = "ubuntu" := rfl
    have hm : matchDistroLoopbackConfig f.filename = some ubuntuLoopbackConfig := by
      simp [matchDistroLoopbackConfig, DISTRO_LOOPBACK_CONFIGS, List.find?, hpat, h]
    exact ⟨hm, by simp [isoEntryFor, hiso, hm]⟩
  · intro hm
    simp [isoEntryFor, hiso, hm]

/-- Witness for C8 amended: a concrete Ubuntu-marked name yields the Ubuntu
stanza, and a concrete unmatched name yields nothing. -/
theorem iso_name_matching_witness :
    (matchDistroLoopbackConfig "Ubuntu-22.04-desktop-amd64.iso" = some ubuntuLoopbackConfig
      ∧ isoEntryFor ⟨"Ubuntu-22.04-desktop-amd64.iso", "Ubuntu 22.04 LTS amd64"⟩
          = isoMenuEntry ⟨"Ubuntu-22.04-desktop-amd64.iso", "Ubuntu 22.04 LTS amd64"⟩
              ubuntuLoopbackConfig)
    ∧ isoEntryFor ⟨"mystery-os.iso", "MYSTERY"⟩ = "" :=
  ⟨(iso_name_matching ⟨"Ubuntu-22.04-desktop-amd64.iso", "Ubuntu 22.04 LTS amd64"⟩
      (by decide)).1 (by decide),
    (iso_name_matching ⟨"mystery-os.iso", "MYSTERY"⟩ (by decide)).2 (by rfl)⟩

/-! ### Theorems about the Linux Full-Install Content Installer -/

/-- C1 (code-bug evaluation): the bootstrap branch of `install_linux_to_f2fs`
is inverted with respect to `utils.run_command`'s exit-status convention.
Evaluating the source's control flow: with debootstrap exiting non-zero the
function enters the post-configuration block and returns True, and with
debootstrap exiting zero it returns False without attempting any
post-configuration — the exact opposite of the claimed (and docstring'd)
behaviour. -/
theorem bootstrap_exit_handling_inverted :
    (install_linux_to_f2fs "/dev/sdX4" "ubuntu" "/mnt/wowusb_rootfs" none
        ⟨true, true, true, fun cmd => if cmd.head? = some "debootstrap" then 1 else 0,
          ⟨true, true, true, true, true, true⟩⟩).postConfigAttempted = true
    ∧ (install_linux_to_f2fs "/dev/sdX4" "ubuntu" "/mnt/wowusb_rootfs" none
        ⟨true, true, true, fun cmd => if cmd.head? = some "debootstrap" then 1 else 0,
          ⟨true, true, true, true, true, true⟩⟩).result = true
    ∧ install_linux_to_f2fs "/dev/sdX4" "ubuntu" "/mnt/wowusb_rootfs" none
        ⟨true, true, true, fun _ => 0, ⟨true, true, true, true, true, true⟩⟩
        = ⟨false, true, false⟩
    ∧ (install_linux_to_f2fs "/dev/sdX4" "ubuntu" "/mnt/wowusb_rootfs" none
        ⟨false, true, true, fun _ => 0, ⟨true, true, true, true, true, true⟩⟩
        = ⟨false, false, false⟩) := by
  exact ⟨rfl, rfl, rfl, rfl⟩

/-- C2 counterexample: a failure of the fstab-writing post-configuration step
is not best-effort — `install_linux_to_f2fs` returns failure (line 239)
instead of the claimed success, even though the post-configuration block was
reached. -/
theorem fstab_failure_aborts_post_configuration :
    (postInstallConfiguration "ubuntu" ⟨false, true, true, true, true, true⟩).1 = false
    ∧ install_linux_to_f2fs "/dev/sdX4" "ubuntu" "/mnt/wowusb_rootfs" none
        ⟨true, true, true, fun _ => 1, ⟨false, true, true, true, true, true⟩⟩
        = ⟨false, true, true⟩ := by
  exact ⟨rfl, rfl⟩

/-- C2 amended: once the post-configuration block is reached and the fstab
write succeeds, every remaining step (locale generation, root/user passwords,
user creation, boot-configuration regeneration, network-service enable) is
best-effort — its failure is only logged and the block still reports
success; a failed fstab write, by contrast, aborts with failure. -/
theorem post_configuration_best_effort_after_fstab (distroType : String)
    (oc : PostConfigOutcomes) (h : oc.fstabWrite = true) :
    (postInstallConfiguration distroType oc).1 = true
    ∧ (oc.rootPasswd = false →
        "Failed to set root password." ∈ (postInstallConfiguration distroType oc).2) := by
  constructor
  · simp [postInstallConfiguration, h]
  · intro hr
    simp [postInstallConfiguration, h, hr]

/-- Witness for C2 amended: with the fstab write succeeding and every other
step failing, the block still reports success, and the root-password failure
is logged. -/
theorem post_configuration_best_effort_witness :
    (postInstallConfiguration "ubuntu" ⟨true, false, false, false, false, false⟩).1 = true
    ∧ "Failed to set root password." ∈
        (postInstallConfiguration "ubuntu" ⟨true, false, false, false, false, false⟩).2 :=
  ⟨(post_configuration_best_effort_after_fstab "ubuntu"
      ⟨true, false, false, false, false, false⟩ rfl).1,
    (post_configuration_best_effort_after_fstab "ubuntu"
      ⟨true, false, false, false, false, false⟩ rfl).2 rfl⟩

/-- C9 (code-bug evaluation): `run_in_chroot`'s unmount loop is broken in two
ways. With every mount and unmount succeeding (the normal case, and what the
stubbed `run_command` always reports), the first successful `umount -l` falls
through to `time.sleep(1)` and raises `NameError` (`time` is never imported),
so the call raises instead of returning a boolean — after attempting only one
of the four releases. And with the first unmount failing (a busy mount), the
`break` fires on the failure branch, so the busy mount gets exactly one
attempt — no retry — before the next path's successful unmount raises. -/
theorem run_in_chroot_unmount_retry_broken :
    run_in_chroot "/mnt/wowusb_rootfs" ["update-grub"] ⟨fun _ => 0, 0, fun _ => 0⟩
      = ⟨ChrootOutcome.raisesNameError,
          ["/mnt/wowusb_rootfs/proc", "/mnt/wowusb_rootfs/sys", "/mnt/wowusb_rootfs/dev",
            "/mnt/wowusb_rootfs/dev/pts"],
          [("/mnt/wowusb_rootfs/dev/pts", 0)]⟩
    ∧ run_in_chroot "/mnt/wowusb_rootfs" ["update-grub"]
        ⟨fun _ => 0, 0, fun p => if p = "/mnt/wowusb_rootfs/dev/pts" then 1 else 0⟩
      = ⟨ChrootOutcome.raisesNameError,
          ["/mnt/wowusb_rootfs/proc", "/mnt/wowusb_rootfs/sys", "/mnt/wowusb_rootfs/dev",
            "/mnt/wowusb_rootfs/dev/pts"],
          [("/mnt/wowusb_rootfs/dev/pts", 0), ("/mnt/wowusb_rootfs/dev", 0)]⟩ := by
  exact ⟨rfl, rfl⟩

/-! ### Theorems about the Multiboot Orchestrator -/

/-- C3 counterexample: when the Windows copy phase raises (for instance on
cooperative cancellation), the cleanup phase runs but the Windows source-ISO
loop mount — acquired during the run yet never appended to
`mounted_partitions_cleanup_list` — is released by no one: a mount acquired
during the run for which no release is ever attempted. -/
theorem untracked_iso_mount_not_released :
    (main_multiboot ⟨true, false⟩
        ⟨false, false, false, false, false, false, true, false, false, false⟩).outcome
      = MbOutcome.raised
    ∧ MountId.winIso ∈ (main_multiboot ⟨true, false⟩
        ⟨false, false, false, false, false, false, true, false, false, false⟩).acquired
    ∧ MountId.winIso ∉ (main_multiboot ⟨true, false⟩
        ⟨false, false, false, false, false, false, true, false, false, false⟩).releases := by
  decide

/-- C3 amended: however the main sequence ends — success, an error return
from any step, or an exception — the `finally` cleanup phase executes, and
its release attempts are exactly the mounts recorded in the cleanup list
(every acquired mount except the untracked Windows source-ISO loop mount) in
reverse acquisition order; release outcomes are ignored by the source, so
each attempt is independent of the others' failures. -/
theorem cleanup_always_runs_on_tracked_mounts (args : MultibootArgs) (env : MultibootEnv) :
    (main_multiboot args env).cleanupAttempts
      = ((main_multiboot args env).acquired.filter fun m => m != MountId.winIso).reverse := by
  obtain ⟨w, fl⟩ := args
  obtain ⟨e₁, e₂, e₃, e₄, e₅, e₆, e₇, e₈, e₉, e₁₀⟩ := env
  revert w fl e₁ e₂ e₃ e₄ e₅ e₆ e₇ e₈ e₉ e₁₀
  decide

/-- C4 counterexample: cancellation signalled at the copy-loop checkpoint
(inside `copy_filesystem_files`) does unwind to the cleanup phase, but it does
NOT leave zero outstanding mounts: the Windows source-ISO loop mount remains
outstanding. -/
theorem cancellation_leaves_iso_mount_outstanding :
    (main_multiboot ⟨true, false⟩
        ⟨false, false, false, false, false, true, false, false, false, false⟩).outcome
      = MbOutcome.raised
    ∧ (main_multiboot ⟨true, false⟩
        ⟨false, false, false, false, false, true, false, false, false, false⟩).outstanding
      = [MountId.winIso] := by
  decide

/-- C4 amended: cancellation signalled at either checkpoint actually present
in the multiboot pipeline (on entry to mounting the Windows source image, or
inside the copy loop) unwinds directly to the cleanup phase — the body ends by
raising, no later step runs — and the cleanup releases every mount it tracks,
leaving zero outstanding tracked mounts; only the untracked Windows source-ISO
loop mount can remain outstanding. -/
theorem cancellation_unwinds_to_cleanup (args : MultibootArgs) (env : MultibootEnv)
    (hwin : args.winIsoProvided = true)
    (hefi : env.mountEfiFails = false) (hgrub : env.grubInstallFails = false)
    (hmw : env.mountWinFails = false)
    (hcancel : env.cancelAtMountSourceCheckpoint = true ∨
      (env.cancelAtMountSourceCheckpoint = false ∧ env.mountWinIsoFails = false ∧
        env.cancelAtCopyLoopCheckpoint = true)) :
    (main_multiboot args env).outcome = MbOutcome.raised
    ∧ (main_multiboot args env).outstanding.filter (fun m => m != MountId.winIso) = [] := by
  obtain ⟨w, fl⟩ := args
  obtain ⟨e₁, e₂, e₃, e₄, e₅, e₆, e₇, e₈, e₉, e₁₀⟩ := env
  simp only at hwin hefi hgrub hmw hcancel
  subst hwin; subst hefi; subst hgrub; subst hmw
  rcases hcancel with h | ⟨h₁, h₂, h₃⟩
  · subst h
    revert fl e₅ e₆ e₇ e₈ e₉ e₁₀
    decide
  · subst h₁; subst h₂; subst h₃
    revert fl e₇ e₈ e₉ e₁₀
    decide

/-- Witness for C4 amended: cancellation at the mount-source checkpoint on a
concrete run. -/
theorem cancellation_unwinds_witness :
    (main_multiboot ⟨true, false⟩
        ⟨false, false, false, true, false, false, false, false, false, false⟩).outcome
      = MbOutcome.raised
    ∧ (main_multiboot ⟨true, false⟩
        ⟨false, false, false, true, false, false, false, false, false, false⟩).outstanding.filter
        (fun m => m != MountId.winIso) = [] :=
  cancellation_unwinds_to_cleanup ⟨true, false⟩
    ⟨false, false, false, true, false, false, false, false, false, false⟩
    rfl rfl rfl rfl (Or.inl rfl)

end WowUSB
